import Mathlib

/-!
Shallow embedding of the ProCalendar backend's availability computation,
booking lifecycle, and calendar-conflict reconciliation logic.

Timestamps are natural numbers: milliseconds since the Unix epoch, with
the JavaScript `Date` local-time operations (`setHours`, `getDay`,
`toDateString`) interpreted in UTC.  The Unix epoch (day index 0) is a
Thursday, so `getDay` of a timestamp `t` is `(t / 86400000 + 4) % 7`.
-/

namespace ProCalender

/-- A half-open time interval `[start, stop)`.  The source's field `end`
is a Lean keyword, so it is called `stop` here.  Used both for external
busy periods and for generated slots (the source pushes `{start, end}`
objects for both). -/
structure Interval where
  start : Nat
  stop : Nat
deriving DecidableEq, Repr

/-- A recurring weekly availability window (models/Window consumed by
`generateTimeSlots`).  The source stores `startHour`/`endHour` as
"HH:MM" strings and splits them on ':' inside `generateTimeSlots`
(`window.startHour.split(':').map(Number)`); the embedding carries the
two already-split numeric components of each. -/
structure Window where
  ownerId : Nat
  dayOfWeek : String
  startHour : Nat
  startMinute : Nat
  endHour : Nat
  endMinute : Nat
  active : Bool
deriving DecidableEq, Repr

/-- The fields of a Booking document used by the availability query and
the slot generator (models/Booking.js). -/
structure BookingDoc where
  ownerId : Nat
  startTime : Nat
  endTime : Nat
  status : String
deriving DecidableEq, Repr

/-- Day-name table from `generateTimeSlots`:
`['Sunday','Monday','Tuesday','Wednesday','Thursday','Friday','Saturday']`. -/
def dayNames : List String :=
  ["Sunday", "Monday", "Tuesday", "Wednesday", "Thursday", "Friday", "Saturday"]

/-- `currentDate.getDay()` mapped through the day-name table.  Day index
of a UTC millisecond timestamp: the epoch was a Thursday (index 4). -/
def dayOfWeekName (t : Nat) : String :=
  dayNames.getD ((t / 86400000 + 4) % 7) ""

/-- Slot-vs-booking conflict test from `generateTimeSlots`
(availabilityService.js lines 140-149): the three-clause disjunction the
source writes out. -/
def bookingConflict (slotStart slotEnd : Nat) (b : BookingDoc) : Bool :=
  (decide (slotStart ≥ b.startTime) && decide (slotStart < b.endTime)) ||
  (decide (slotEnd > b.startTime) && decide (slotEnd ≤ b.endTime)) ||
  (decide (slotStart ≤ b.startTime) && decide (slotEnd ≥ b.endTime))

/-- Slot-vs-busy-period conflict test from `generateTimeSlots`
(availabilityService.js lines 152-158), same three-clause shape. -/
def periodConflict (slotStart slotEnd : Nat) (p : Interval) : Bool :=
  (decide (slotStart ≥ p.start) && decide (slotStart < p.stop)) ||
  (decide (slotEnd > p.start) && decide (slotEnd ≤ p.stop)) ||
  (decide (slotStart ≤ p.start) && decide (slotEnd ≥ p.stop))

/-- One iteration structure of the inner `while (slotStart < windowEnd)`
loop of `generateTimeSlots`: steps `slotStart` by `interval` (the meeting
duration in ms), breaks when the candidate's end would pass the window
end, and keeps candidates with no booking and no busy-period conflict.
`fuel` is a structural iteration bound; the wrapper `windowSlots` supplies
a bound that the loop can never exhaust (each recursive call needs
`slotStart + interval ≤ windowEnd`, so at most
`(windowEnd - slotStart) / interval` recursive calls happen). -/
def windowSlotsGo (bookings : List BookingDoc) (busyPeriods : List Interval)
    (windowEnd interval : Nat) : Nat → Nat → List Interval
  | _, 0 => []
  | slotStart, fuel + 1 =>
    if slotStart < windowEnd then
      if windowEnd < slotStart + interval then []
      else
        if (bookings.any fun b => bookingConflict slotStart (slotStart + interval) b) ||
            (busyPeriods.any fun p => periodConflict slotStart (slotStart + interval) p) then
          windowSlotsGo bookings busyPeriods windowEnd interval (slotStart + interval) fuel
        else
          ⟨slotStart, slotStart + interval⟩ ::
            windowSlotsGo bookings busyPeriods windowEnd interval (slotStart + interval) fuel
    else []

/-- The inner slot loop of `generateTimeSlots` with its iteration bound
instantiated.  For `interval = 0` the source loops forever; the embedding
returns `[]` in that (never exercised) case to stay total. -/
def windowSlots (bookings : List BookingDoc) (busyPeriods : List Interval)
    (windowEnd interval slotStart : Nat) : List Interval :=
  if interval = 0 then []
  else windowSlotsGo bookings busyPeriods windowEnd interval slotStart
    ((windowEnd - slotStart) / interval + 1)

/-- One iteration structure of the outer `while (currentDate <= endDate)`
day loop of `generateTimeSlots`: the list of midnight timestamps visited,
stepping one day (86400000 ms) at a time.  `fuel` is a structural
iteration bound supplied by `dayLoop`. -/
def dayLoopGo (endDate : Nat) : Nat → Nat → List Nat
  | _, 0 => []
  | currentDate, fuel + 1 =>
    if currentDate ≤ endDate then
      currentDate :: dayLoopGo endDate (currentDate + 86400000) fuel
    else []

/-- The day loop with its iteration bound instantiated: each iteration
advances a full day, so at most `(endDate - currentDate) / 86400000 + 1`
iterations pass the `currentDate <= endDate` check. -/
def dayLoop (endDate currentDate : Nat) : List Nat :=
  dayLoopGo endDate currentDate ((endDate - currentDate) / 86400000 + 2)

/-- `generateTimeSlots(windows, bookings, busyPeriods, startDate, endDate,
durationMinutes)` from availabilityService.js lines 98-177.  `startDate`
is first snapped back to midnight (`setHours(0,0,0,0)`); each visited day
selects the windows whose `dayOfWeek` matches the day's name, materializes
each window onto the day (`setHours(startHour, startMinute, 0, 0)`), and
collects the surviving candidate slots. -/
def generateTimeSlots (windows : List Window) (bookings : List BookingDoc)
    (busyPeriods : List Interval) (startDate endDate durationMinutes : Nat) :
    List Interval :=
  let interval := durationMinutes * 60 * 1000
  let firstMidnight := startDate / 86400000 * 86400000
  (dayLoop endDate firstMidnight).flatMap fun currentDate =>
    let dayOfWeek := dayOfWeekName currentDate
    let dayWindows := windows.filter fun w => w.dayOfWeek == dayOfWeek
    dayWindows.flatMap fun w =>
      let windowStart := currentDate + w.startHour * 3600000 + w.startMinute * 60000
      let windowEnd := currentDate + w.endHour * 3600000 + w.endMinute * 60000
      windowSlots bookings busyPeriods windowEnd interval windowStart

/-- The user document fields consulted by
`getGoogleCalendarBusyPeriods` (`user.googleTokens`); the token payload
itself is never inspected, only its presence. -/
structure User where
  googleTokens : Option String
deriving DecidableEq, Repr

/-- `getGoogleCalendarBusyPeriods(user, startDate, endDate)` from
availabilityService.js lines 48-92.  The external free/busy API call is
modelled by its outcome `freebusyResult`: the source returns `[]` when
there is no user or no stored tokens, returns `[]` from the catch-block
when the call chain throws, and otherwise returns the extracted busy
intervals. -/
def getGoogleCalendarBusyPeriods (user : Option User)
    (freebusyResult : Except String (List Interval)) : List Interval :=
  match user with
  | none => []
  | some u =>
    match u.googleTokens with
    | none => []
    | some _ =>
      match freebusyResult with
      | .error _ => []
      | .ok periods => periods

/-- The Booking query filter of `getAvailableTimeSlots`
(availabilityService.js lines 23-28): `ownerId = userId`,
`startTime >= startDate`, `endTime <= endDate`, `status != 'canceled'`. -/
def bookingQuery (userId startDate endDate : Nat) (b : BookingDoc) : Bool :=
  decide (b.ownerId = userId) && decide (b.startTime ≥ startDate) &&
  decide (b.endTime ≤ endDate) && decide (b.status ≠ "canceled")

/-- `getAvailableTimeSlots(userId, startDate, endDate, durationMinutes)`
from availabilityService.js lines 17-42, with the persistence layer made
explicit: `allWindows`/`allBookings` stand for the stored collections
(the source's `Window.find` / `Booking.find` filters are applied here),
and the Google free/busy call is given by `user`/`freebusyResult` as in
`getGoogleCalendarBusyPeriods`. -/
def getAvailableTimeSlots (userId : Nat) (allWindows : List Window)
    (allBookings : List BookingDoc) (user : Option User)
    (freebusyResult : Except String (List Interval))
    (startDate endDate durationMinutes : Nat) : List Interval :=
  let windows := allWindows.filter fun w => decide (w.ownerId = userId) && w.active
  let bookings := allBookings.filter (bookingQuery userId startDate endDate)
  let busyPeriods := getGoogleCalendarBusyPeriods user freebusyResult
  generateTimeSlots windows bookings busyPeriods startDate endDate durationMinutes

/-- The spec's interval-overlap contract, stated in its own words
(spec section 4.1): `overlaps(a,b)` iff `aStart < bEnd AND bStart < aEnd`
on half-open intervals.  This is the refinement target the source's
conflict checks are compared against; it is NOT taken from the source. -/
def specOverlaps (aStart aEnd bStart bEnd : Nat) : Bool :=
  decide (aStart < bEnd) && decide (bStart < aEnd)

/-! ## Conflict reconciliation (webhook-driven)

Two implementations exist in the repository: `processCalendarUpdate` in
controllers/googleCalendarController.js (lines 543-608), and the
`processCalendarUpdate`/`checkBookingConflicts` pair in the unnamed
controller variant (src/unnamed/part_011, lines 317-374). -/

/-- A Google Calendar event time as consumed by the conflict checks:
either a `dateTime` (timed event) or a `date` (all-day event, carried
here as the UTC midnight timestamp of that date).  The source reads
`event.start.dateTime || event.start.date + "T00:00:00"` (and
`... + "T23:59:59"` for ends). -/
structure EventTime where
  dateTime : Option Nat
  date : Option Nat
deriving DecidableEq, Repr

/-- A calendar event as consumed by the reconciliation code; `start`/`stop`
are `Option` because the source skips events without both
(`if (!event.start || !event.end) return false`). -/
structure CalEvent where
  id : String
  summary : String
  start : Option EventTime
  stop : Option EventTime
deriving DecidableEq, Repr

/-- `new Date(event.start.dateTime || event.start.date + "T00:00:00")`:
a timed event's own timestamp, or the all-day event's date at 00:00:00. -/
def resolveEventStart (t : EventTime) : Nat :=
  match t.dateTime with
  | some ts => ts
  | none => t.date.getD 0

/-- `new Date(event.end.dateTime || event.end.date + "T23:59:59")`:
a timed event's own timestamp, or the all-day event's date at 23:59:59
(86399000 ms past midnight). -/
def resolveEventEnd (t : EventTime) : Nat :=
  match t.dateTime with
  | some ts => ts
  | none => t.date.getD 0 + 86399000

/-- The Booking fields consumed and mutated by the reconciliation job. -/
structure BookingR where
  ownerId : Nat
  startTime : Nat
  endTime : Nat
  status : String
  hasCalendarConflict : Bool
  conflictDetails : List (String × String × Nat × Nat)
deriving DecidableEq, Repr

/-- The conflict-details entry stored by both reconciliation variants:
`{eventId, summary, start, end}` with the raw `dateTime`-or-`date` value
for the bounds. -/
def conflictDetailOf (e : CalEvent) : String × String × Nat × Nat :=
  (e.id, e.summary,
    (match e.start with
      | some t => match t.dateTime with | some ts => ts | none => t.date.getD 0
      | none => 0),
    (match e.stop with
      | some t => match t.dateTime with | some ts => ts | none => t.date.getD 0
      | none => 0))

/-- The booking-vs-event overlap test written out in
googleCalendarController.js `processCalendarUpdate` (lines 583-587):
a three-clause disjunction over the resolved event bounds. -/
def gccOverlap (eventStart eventEnd bookingStart bookingEnd : Nat) : Bool :=
  (decide (eventStart ≤ bookingStart) && decide (eventEnd > bookingStart)) ||
  (decide (eventStart < bookingEnd) && decide (eventEnd ≥ bookingEnd)) ||
  (decide (eventStart ≥ bookingStart) && decide (eventEnd ≤ bookingEnd))

/-- The per-event conflict filter of googleCalendarController.js
`processCalendarUpdate` (lines 575-588). -/
def gccConflict (b : BookingR) (e : CalEvent) : Bool :=
  match e.start, e.stop with
  | some es, some ee =>
    gccOverlap (resolveEventStart es) (resolveEventEnd ee) b.startTime b.endTime
  | _, _ => false

/-- The booking-vs-event conflict test of part_011
`checkBookingConflicts` (lines 352-355): the half-open overlap on the
resolved bounds, OR-ed with an all-day same-calendar-date clause
(`event.start.date && bookingStart.toDateString() ===
eventStart.toDateString()`; `toDateString` equality is modelled as
equality of UTC day indexes). -/
def p11Conflict (b : BookingR) (e : CalEvent) : Bool :=
  match e.start, e.stop with
  | some es, some ee =>
    (decide (resolveEventStart es < b.endTime) &&
      decide (resolveEventEnd ee > b.startTime)) ||
    (es.date.isSome &&
      decide (b.startTime / 86400000 = resolveEventStart es / 86400000))
  | _, _ => false

/-- The booking filter of part_011 `checkBookingConflicts` (lines
337-341): `ownerId = userId`, `startTime > now`,
`status in ['confirmed', 'pending']`. -/
def p11Filter (userId now : Nat) (b : BookingR) : Bool :=
  decide (b.ownerId = userId) && decide (b.startTime > now) &&
  (decide (b.status = "confirmed") || decide (b.status = "pending"))

/-- The per-booking body of part_011 `checkBookingConflicts` (lines
343-373): if any event conflicts, set the flag and store the details;
otherwise, if the booking was previously flagged, `$unset` the flag and
details; otherwise leave the record as it is. -/
def p11Reconcile (events : List CalEvent) (b : BookingR) : BookingR :=
  let conflicts := events.filter fun e => p11Conflict b e
  if conflicts.isEmpty then
    if b.hasCalendarConflict then
      { b with hasCalendarConflict := false, conflictDetails := [] }
    else b
  else
    { b with hasCalendarConflict := true,
             conflictDetails := conflicts.map conflictDetailOf }

/-- One booking's fate under a run of part_011 `checkBookingConflicts`:
bookings outside the query filter are never loaded, hence unchanged. -/
def p11Step (userId now : Nat) (events : List CalEvent) (b : BookingR) : BookingR :=
  if p11Filter userId now b then p11Reconcile events b else b

/-- `checkBookingConflicts(userId, events)` of part_011 (lines 336-374)
as a transformer of the stored booking collection; `now` is the
evaluation time of `new Date()` in its query. -/
def checkBookingConflicts (userId now : Nat) (events : List CalEvent)
    (bookings : List BookingR) : List BookingR :=
  bookings.map (p11Step userId now events)

/-- The booking filter of googleCalendarController.js
`processCalendarUpdate` (lines 561-564): `ownerId = userId` and
`startTime > now` only — no status condition. -/
def gccFilter (userId now : Nat) (b : BookingR) : Bool :=
  decide (b.ownerId = userId) && decide (b.startTime > now)

/-- One booking's fate under googleCalendarController.js
`processCalendarUpdate` (lines 567-605): if any event conflicts, set the
flag and store the details; otherwise the record is left untouched — in
particular a previously set flag is never cleared. -/
def gccStep (userId now : Nat) (events : List CalEvent) (b : BookingR) : BookingR :=
  if gccFilter userId now b then
    let conflicts := events.filter fun e => gccConflict b e
    if conflicts.isEmpty then b
    else
      { b with hasCalendarConflict := true,
               conflictDetails := conflicts.map conflictDetailOf }
  else b

/-- `processCalendarUpdate(user, calendarId)`'s booking pass from
googleCalendarController.js (lines 543-608) as a transformer of the
stored booking collection. -/
def processCalendarUpdate (userId now : Nat) (events : List CalEvent)
    (bookings : List BookingR) : List BookingR :=
  bookings.map (gccStep userId now events)

/-! ## Booking creation (approval workflow) -/

/-- The BookingLink fields consulted by `createBooking`
(controllers/bookingController.js). -/
structure BookingLink where
  requiresApproval : Bool
  calendarIntegration : Bool
  name : String
  ownerEmail : String
deriving DecidableEq, Repr

/-- The event payload `createBooking` sends to
`calendarService.createEvent`: summary, interval, the `status` field
(`'tentative'` when approval is pending, else `'confirmed'`), and the
extra tentative flag passed as third argument. -/
structure EventData where
  summary : String
  startTime : Nat
  endTime : Nat
  status : String
  tentativeFlag : Bool
deriving DecidableEq, Repr

/-- The Booking document produced by `createBooking`, restricted to the
fields the lifecycle claims are about.  `status` is never assigned by the
controller, so it holds the Booking-schema default `'confirmed'`
(models/Booking.js lines 50-54). -/
structure NewBooking where
  clientName : String
  clientEmail : String
  startTime : Nat
  endTime : Nat
  approvalStatus : String
  status : String
  tentativeEventId : Option String
deriving DecidableEq, Repr

/-- The legal values of `approvalStatus` declared by the Booking schema
(models/Booking.js lines 57-61). -/
def approvalStatusEnum : List String := ["pending", "approved", "rejected"]

/-- The legal values of `status` declared by the Booking schema
(models/Booking.js lines 50-54). -/
def statusEnum : List String := ["confirmed", "canceled", "completed"]

/-- `createBooking` from controllers/bookingController.js (lines
156-244) as a pure computation: given the link, the client input, and
the event id the calendar gateway returns, produce the stored booking
and the optional event-creation request.  The controller computes
`approvalStatus = requiresApproval ? 'pending' : 'confirmed'`, creates
the booking (without setting `status`, so the schema default
`'confirmed'` applies), and — only when `calendarIntegration` is on —
creates a calendar event and stores its id in `tentativeEventId`
regardless of approval mode. -/
def createBooking (link : BookingLink) (clientName clientEmail : String)
    (startTime endTime : Nat) (calendarEventId : String) :
    NewBooking × Option EventData :=
  let approvalStatus := if link.requiresApproval then "pending" else "confirmed"
  let booking : NewBooking :=
    { clientName := clientName, clientEmail := clientEmail,
      startTime := startTime, endTime := endTime,
      approvalStatus := approvalStatus, status := "confirmed",
      tentativeEventId := none }
  if link.calendarIntegration then
    let eventData : EventData :=
      { summary := link.name ++ " with " ++ clientName,
        startTime := startTime, endTime := endTime,
        status := if approvalStatus = "pending" then "tentative" else "confirmed",
        tentativeFlag := approvalStatus = "pending" }
    ({ booking with tentativeEventId := some calendarEventId }, some eventData)
  else (booking, none)

/-- The `pre('save')` hook of models/Booking.js (lines 119-138) for a
new document: it looks the referenced link up in the `Link` model
(`linkLookup` is that query's result) and overwrites `approvalStatus`
(and, when no approval is required or the link is not found, also
`status`). -/
def bookingPreSaveNew (linkLookup : Option BookingLink) (b : NewBooking) : NewBooking :=
  match linkLookup with
  | some link =>
    if link.requiresApproval then { b with approvalStatus := "pending" }
    else { b with approvalStatus := "approved", status := "confirmed" }
  | none => { b with approvalStatus := "approved", status := "confirmed" }

/-! ## Concrete fixtures for the scenario theorems

1970-01-05 (UTC day index 4, midnight 345600000 ms) is a Monday; the
query range `[345600000, 431999999]` covers exactly that Monday.
Monday 09:00 is 378000000, 10:00 is 381600000, 11:00 is 385200000,
12:00 is 388800000, 10:45 is 384300000, 11:15 is 386100000. -/

/-- The Monday 09:00-12:00 window used by the spec's scenarios. -/
def mondayWindow : Window :=
  { ownerId := 1, dayOfWeek := "Monday", startHour := 9, startMinute := 0,
    endHour := 12, endMinute := 0, active := true }

/-- A busy period Monday 10:45-11:15 (the buffered-rejection scenario). -/
def busy1045to1115 : Interval := ⟨384300000, 386100000⟩

/-- A busy period Monday 10:45-11:00: it touches the 11:00-12:00 slot
but overlaps only that slot's 15-minute-buffered interval. -/
def busy1045to1100 : Interval := ⟨384300000, 385200000⟩

/-- A non-canceled booking Sunday 23:30 - Monday 09:30: it overlaps the
Monday query range but starts before it. -/
def straddleBooking : BookingDoc :=
  { ownerId := 1, startTime := 343800000, endTime := 379800000, status := "confirmed" }

/-- An all-day calendar event on day 0 (resolved bounds
00:00:00-23:59:59). -/
def allDayEvent : CalEvent :=
  { id := "e1", summary := "all day", start := some ⟨none, some 0⟩,
    stop := some ⟨none, some 0⟩ }

/-- A booking that starts exactly when `allDayEvent`'s resolved interval
ends (day 0, 23:59:59). -/
def touchBooking : BookingR :=
  { ownerId := 1, startTime := 86399000, endTime := 90000000,
    status := "confirmed", hasCalendarConflict := true, conflictDetails := [] }

/-- A future booking carrying a stale conflict flag (and stale details)
while no current event conflicts with it. -/
def staleFlaggedBooking : BookingR :=
  { ownerId := 1, startTime := 1000000, endTime := 2000000,
    status := "confirmed", hasCalendarConflict := true,
    conflictDetails := [("old", "stale", 0, 1)] }

/-- A canceled booking with a future start time. -/
def canceledFutureBooking : BookingR :=
  { ownerId := 1, startTime := 1000000, endTime := 2000000,
    status := "canceled", hasCalendarConflict := false, conflictDetails := [] }

/-- A timed event overlapping `canceledFutureBooking`. -/
def overlapEvent : CalEvent :=
  { id := "e2", summary := "meet", start := some ⟨some 1500000, none⟩,
    stop := some ⟨some 1600000, none⟩ }

/-- A link with auto-confirmation (no approval) and calendar integration. -/
def autoLink : BookingLink :=
  { requiresApproval := false, calendarIntegration := true,
    name := "Intro call", ownerEmail := "owner@example.com" }

/-- A link that requires approval, with calendar integration. -/
def approvalLink : BookingLink :=
  { requiresApproval := true, calendarIntegration := true,
    name := "Intro call", ownerEmail := "owner@example.com" }

/-- A link with auto-confirmation and no calendar integration. -/
def autoLinkNoCal : BookingLink :=
  { requiresApproval := false, calendarIntegration := false,
    name := "Intro call", ownerEmail := "owner@example.com" }

/-! ## Helper lemmas -/

/-- Two booleans agreeing as propositions are equal. -/
lemma bool_eq_of_iff (x y : Bool) (h : x = true ↔ y = true) : x = y := by
  cases x <;> cases y <;> simp_all

/-- Every slot emitted by the inner loop starts a whole number of steps
of size `interval` after the initial `slotStart`, is exactly `interval`
long, and ends no later than the window end. -/
lemma windowSlotsGo_mem (bookings : List BookingDoc) (busy : List Interval)
    (wEnd interval : Nat) :
    ∀ (fuel s0 : Nat) (s : Interval),
      s ∈ windowSlotsGo bookings busy wEnd interval s0 fuel →
      (∃ k, s.start = s0 + k * interval) ∧ s.stop = s.start + interval ∧
        s.stop ≤ wEnd := by
  intro fuel
  induction fuel with
  | zero => intro s0 s h; simp [windowSlotsGo] at h
  | succ n ih =>
    intro s0 s h
    simp only [windowSlotsGo] at h
    split at h
    · split at h
      · simp at h
      · split at h
        · obtain ⟨⟨k, hk⟩, h2, h3⟩ := ih (s0 + interval) s h
          exact ⟨⟨k + 1, by rw [hk]; ring⟩, h2, h3⟩
        · rcases List.mem_cons.mp h with h0 | h1
          · subst h0
            exact ⟨⟨0, by simp⟩, rfl, by dsimp only; omega⟩
          · obtain ⟨⟨k, hk⟩, h2, h3⟩ := ih (s0 + interval) s h1
            exact ⟨⟨k + 1, by rw [hk]; ring⟩, h2, h3⟩
    · simp at h

/-- `windowSlotsGo_mem` carried over the fuel wrapper. -/
lemma windowSlots_mem (bookings : List BookingDoc) (busy : List Interval)
    (wEnd interval s0 : Nat) (s : Interval)
    (h : s ∈ windowSlots bookings busy wEnd interval s0) :
    (∃ k, s.start = s0 + k * interval) ∧ s.stop = s.start + interval ∧
      s.stop ≤ wEnd := by
  unfold windowSlots at h
  split at h
  · simp at h
  · exact windowSlotsGo_mem bookings busy wEnd interval _ s0 s h

/-! ## Claim theorems -/

/-- C1: for a single active Window on Monday 09:00-12:00, meeting
duration 60 minutes, no buffers, no bookings and no busy periods, and a
query range covering exactly one Monday, `generateTimeSlots` returns
exactly the slots 09:00-10:00, 10:00-11:00 and 11:00-12:00; and in
general every returned slot starts a whole number of meeting-duration
steps after a materialized window start, has exactly the meeting
duration (so consecutive candidates are back-to-back and
non-overlapping), and lies entirely inside the materialized window
interval. -/
theorem C1_monday_three_slots :
    generateTimeSlots [mondayWindow] [] [] 345600000 431999999 60 =
      [⟨378000000, 381600000⟩, ⟨381600000, 385200000⟩, ⟨385200000, 388800000⟩] ∧
    ∀ (windows : List Window) (bookings : List BookingDoc)
      (busyPeriods : List Interval) (startDate endDate durationMinutes : Nat)
      (s : Interval),
      s ∈ generateTimeSlots windows bookings busyPeriods startDate endDate
            durationMinutes →
      ∃ d ∈ dayLoop endDate (startDate / 86400000 * 86400000), ∃ w ∈ windows,
        w.dayOfWeek = dayOfWeekName d ∧
        (∃ k, s.start = d + w.startHour * 3600000 + w.startMinute * 60000 +
          k * (durationMinutes * 60 * 1000)) ∧
        s.stop = s.start + durationMinutes * 60 * 1000 ∧
        d + w.startHour * 3600000 + w.startMinute * 60000 ≤ s.start ∧
        s.stop ≤ d + w.endHour * 3600000 + w.endMinute * 60000 := by
  constructor
  · decide
  · intro windows bookings busyPeriods startDate endDate durationMinutes s hs
    simp only [generateTimeSlots] at hs
    rw [List.mem_flatMap] at hs
    obtain ⟨d, hd, hs⟩ := hs
    rw [List.mem_flatMap] at hs
    obtain ⟨w, hw, hs⟩ := hs
    obtain ⟨hwmem, hwday⟩ := List.mem_filter.mp hw
    obtain ⟨⟨k, hk⟩, hlen, hend⟩ := windowSlots_mem _ _ _ _ _ _ hs
    refine ⟨d, hd, w, hwmem, by simpa using hwday, ⟨k, hk⟩, hlen, ?_, hend⟩
    rw [hk]
    exact Nat.le_add_right _ _

/-- Witness for C1: the 09:00-10:00 slot of the Monday scenario is inside
the materialized Monday window. -/
theorem C1_monday_three_slots_witness :
    ∃ d ∈ dayLoop 431999999 (345600000 / 86400000 * 86400000),
      ∃ w ∈ [mondayWindow],
        w.dayOfWeek = dayOfWeekName d ∧
        (∃ k, (⟨378000000, 381600000⟩ : Interval).start =
          d + w.startHour * 3600000 + w.startMinute * 60000 +
            k * (60 * 60 * 1000)) ∧
        (⟨378000000, 381600000⟩ : Interval).stop =
          (⟨378000000, 381600000⟩ : Interval).start + 60 * 60 * 1000 ∧
        d + w.startHour * 3600000 + w.startMinute * 60000 ≤
          (⟨378000000, 381600000⟩ : Interval).start ∧
        (⟨378000000, 381600000⟩ : Interval).stop ≤
          d + w.endHour * 3600000 + w.endMinute * 60000 :=
  C1_monday_three_slots.2 [mondayWindow] [] [] 345600000 431999999 60
    ⟨378000000, 381600000⟩ (by decide)

/-- C2 counterexample: part_011's `checkBookingConflicts` event test
reports a conflict for a booking that only touches an all-day event's
resolved interval at a shared endpoint (day 0 at 23:59:59), because of
its extra same-calendar-date disjunct — so that check is not the
half-open overlap predicate, under which touching intervals never
conflict. -/
theorem C2_touching_allday_conflict :
    p11Conflict touchBooking allDayEvent = true ∧
    resolveEventEnd ⟨none, some 0⟩ = touchBooking.startTime ∧
    specOverlaps (resolveEventStart ⟨none, some 0⟩)
      (resolveEventEnd ⟨none, some 0⟩)
      touchBooking.startTime touchBooking.endTime = false := by
  decide

/-- C2 amended: the three-clause disjunctions — slot-vs-booking and
slot-vs-busy-period in `generateTimeSlots`, and booking-vs-event in
googleCalendarController's `processCalendarUpdate` — are each equivalent
to the single half-open predicate `aStart < bEnd AND bStart < aEnd` for
non-empty intervals, and part_011's check agrees with it on timed
events; only part_011's all-day handling (the counterexample) departs
from it. -/
theorem C2_overlap_equivalences :
    ∀ (s e : Nat) (b : BookingDoc) (p : Interval) (es ee bs be : Nat)
      (i su : String) (br : BookingR),
      (s < e → b.startTime < b.endTime →
        bookingConflict s e b = specOverlaps s e b.startTime b.endTime) ∧
      (s < e → p.start < p.stop →
        periodConflict s e p = specOverlaps s e p.start p.stop) ∧
      (es < ee → bs < be → gccOverlap es ee bs be = specOverlaps es ee bs be) ∧
      p11Conflict br ⟨i, su, some ⟨some es, none⟩, some ⟨some ee, none⟩⟩ =
        specOverlaps es ee br.startTime br.endTime := by
  intro s e b p es ee bs be i su br
  refine ⟨fun h1 h2 => bool_eq_of_iff _ _ ?_,
    fun h1 h2 => bool_eq_of_iff _ _ ?_,
    fun h1 h2 => bool_eq_of_iff _ _ ?_, bool_eq_of_iff _ _ ?_⟩
  · simp only [bookingConflict, specOverlaps, Bool.or_eq_true,
      Bool.and_eq_true, decide_eq_true_eq]
    omega
  · simp only [periodConflict, specOverlaps, Bool.or_eq_true,
      Bool.and_eq_true, decide_eq_true_eq]
    omega
  · simp only [gccOverlap, specOverlaps, Bool.or_eq_true,
      Bool.and_eq_true, decide_eq_true_eq]
    omega
  · simp only [p11Conflict, resolveEventStart, resolveEventEnd,
      specOverlaps, Option.isSome_none, Bool.false_and, Bool.or_false,
      Bool.and_eq_true, decide_eq_true_eq]

/-- Witness for C2 amended: the slot-vs-booking clause and the
reconciliation clause both agree with the half-open predicate at
concrete non-empty intervals. -/
theorem C2_overlap_equivalences_witness :
    bookingConflict 378000000 381600000 straddleBooking =
      specOverlaps 378000000 381600000 straddleBooking.startTime
        straddleBooking.endTime ∧
    gccOverlap 0 2 1 3 = specOverlaps 0 2 1 3 :=
  ⟨(C2_overlap_equivalences 378000000 381600000 straddleBooking ⟨0, 1⟩ 0 2 1 3
      "i" "s" touchBooking).1 (by decide) (by decide),
   (C2_overlap_equivalences 378000000 381600000 straddleBooking ⟨0, 1⟩ 0 2 1 3
      "i" "s" touchBooking).2.2.1 (by decide) (by decide)⟩

/-- C3 counterexample: `generateTimeSlots` receives no buffer parameters
and never expands a candidate before conflict testing.  With the Monday
window and a busy period 10:45-11:00, the 11:00-12:00 slot is returned
even though its 15-minute-buffered interval `[10:45, 12:00)` overlaps
the busy period — the claim requires that slot to be rejected. -/
theorem C3_buffered_slot_not_rejected :
    generateTimeSlots [mondayWindow] [] [busy1045to1100] 345600000 431999999 60 =
      [⟨378000000, 381600000⟩, ⟨385200000, 388800000⟩] ∧
    specOverlaps (385200000 - 900000) 388800000
      busy1045to1100.start busy1045to1100.stop = true := by
  decide

/-- C3 amended: no buffer expansion is performed — candidates are
conflict-tested with their bare intervals.  The spec scenario's outcome
still holds, but for a different reason: the busy period 10:45-11:15
overlaps both the 10:00-11:00 and the 11:00-12:00 candidates unbuffered,
so only 09:00-10:00 is returned. -/
theorem C3_unbuffered_scenario :
    generateTimeSlots [mondayWindow] [] [busy1045to1115] 345600000 431999999 60 =
      [⟨378000000, 381600000⟩] ∧
    specOverlaps 381600000 385200000 busy1045to1115.start busy1045to1115.stop = true ∧
    specOverlaps 385200000 388800000 busy1045to1115.start busy1045to1115.stop = true := by
  decide

/-- C4 counterexample: `generateTimeSlots` consults no clock.  With the
availability query evaluated at Monday 12:00 (388800000), every slot of
the Monday scenario starts before that moment, yet all are returned —
the claim requires each of them to be rejected. -/
theorem C4_past_slots_returned :
    (generateTimeSlots [mondayWindow] [] [] 345600000 431999999 60).all
      (fun s => decide (s.start < 388800000)) = true ∧
    generateTimeSlots [mondayWindow] [] [] 345600000 431999999 60 ≠ [] := by
  decide

/-- C4 amended: the slot generator performs no rejection of past slots —
its output does not depend on the evaluation moment, so for any
evaluation time at or after Monday 12:00 the whole (past) Monday
schedule is still returned, every slot starting before that time. -/
theorem C4_no_now_filter :
    generateTimeSlots [mondayWindow] [] [] 345600000 431999999 60 ≠ [] ∧
    ∀ t : Nat, 388800000 ≤ t →
      ∀ s ∈ generateTimeSlots [mondayWindow] [] [] 345600000 431999999 60,
        s.start < t := by
  constructor
  · decide
  · intro t ht s hs
    have h3 : generateTimeSlots [mondayWindow] [] [] 345600000 431999999 60 =
        [⟨378000000, 381600000⟩, ⟨381600000, 385200000⟩,
          ⟨385200000, 388800000⟩] := by decide
    rw [h3] at hs
    simp only [List.mem_cons, List.not_mem_nil, or_false] at hs
    rcases hs with h | h | h <;> subst h <;> dsimp only <;> omega

/-- Witness for C4 amended: at evaluation time 400000000 the returned
09:00 slot indeed starts earlier. -/
theorem C4_no_now_filter_witness :
    (⟨378000000, 381600000⟩ : Interval).start < 400000000 :=
  C4_no_now_filter.2 400000000 (by decide) ⟨378000000, 381600000⟩ (by decide)

/-- C5: the claim matches the Booking schema's own declarations (the
`approvalStatus` enum and the pre-save hook, which sets
`approvalStatus = 'approved'`, `status = 'confirmed'` when no approval
is required), but the controller contradicts them: for a link with
`requiresApproval = false` it writes `approvalStatus = 'confirmed'` — a
value outside the schema enum and different from `'approved'` — and it
stores the confirmed event's id in `tentativeEventId` (there is no
confirmed-event field); with calendar integration off, no external event
id exists at all. -/
theorem C5_auto_confirm_enum_bug :
    (createBooking autoLink "Ana" "ana@example.com" 378000000 381600000
      "evt1").1.approvalStatus = "confirmed" ∧
    "confirmed" ∉ approvalStatusEnum ∧
    (createBooking autoLink "Ana" "ana@example.com" 378000000 381600000
      "evt1").1.approvalStatus ≠ "approved" ∧
    (createBooking autoLink "Ana" "ana@example.com" 378000000 381600000
      "evt1").1.tentativeEventId = some "evt1" ∧
    (createBooking autoLinkNoCal "Ana" "ana@example.com" 378000000 381600000
      "evt1").2 = none ∧
    (bookingPreSaveNew (some autoLink)
      (createBooking autoLink "Ana" "ana@example.com" 378000000 381600000
        "evt1").1).approvalStatus = "approved" := by
  decide

/-- C6 counterexample: immediately after creation through a link that
requires approval, the booking's `status` equals `'confirmed'` — the
controller never sets `status`, so the Booking schema default
`'confirmed'` applies — contradicting "its status field is not yet set
to confirmed". -/
theorem C6_status_defaults_confirmed :
    (createBooking approvalLink "Ana" "ana@example.com" 378000000 381600000
      "evt2").1.status = "confirmed" ∧
    approvalLink.requiresApproval = true := by
  decide

/-- C6 amended: for a link with `requiresApproval = true` the created
booking has `approvalStatus = 'pending'` and (when calendar integration
is on) the tentative event's id stored in `tentativeEventId`, with the
event requested as tentative; but its `status` field already equals the
schema default `'confirmed'` rather than being unset. -/
theorem C6_pending_creation :
    ∀ (link : BookingLink) (cn ce : String) (s e : Nat) (evId : String),
      link.requiresApproval = true →
      (createBooking link cn ce s e evId).1.approvalStatus = "pending" ∧
      (createBooking link cn ce s e evId).1.status = "confirmed" ∧
      (link.calendarIntegration = true →
        (createBooking link cn ce s e evId).1.tentativeEventId = some evId ∧
        ((createBooking link cn ce s e evId).2.map EventData.tentativeFlag =
          some true ∧
         (createBooking link cn ce s e evId).2.map EventData.status =
          some "tentative")) := by
  intro link cn ce s e evId h
  by_cases hc : link.calendarIntegration
  · refine ⟨?_, ?_, fun _ => ⟨?_, ?_, ?_⟩⟩ <;> simp [createBooking, h, hc]
  · refine ⟨?_, ?_, fun hcc => absurd hcc hc⟩ <;> simp [createBooking, h, hc]

/-- Witness for C6 amended, at the approval-requiring fixture link. -/
theorem C6_pending_creation_witness :
    (createBooking approvalLink "Ana" "ana@example.com" 378000000 381600000
      "evt2").1.approvalStatus = "pending" ∧
    (createBooking approvalLink "Ana" "ana@example.com" 378000000 381600000
      "evt2").1.status = "confirmed" ∧
    (approvalLink.calendarIntegration = true →
      (createBooking approvalLink "Ana" "ana@example.com" 378000000 381600000
        "evt2").1.tentativeEventId = some "evt2" ∧
      ((createBooking approvalLink "Ana" "ana@example.com" 378000000 381600000
        "evt2").2.map EventData.tentativeFlag = some true ∧
       (createBooking approvalLink "Ana" "ana@example.com" 378000000 381600000
        "evt2").2.map EventData.status = some "tentative")) :=
  C6_pending_creation approvalLink "Ana" "ana@example.com" 378000000 381600000
    "evt2" (by decide)

/-- C7 counterexample: googleCalendarController's `processCalendarUpdate`
never clears a stale flag.  A future, owner-matching booking flagged
`hasCalendarConflict = true` is processed by a run whose fresh event
data shows no conflicts, yet it keeps its flag and stale details. -/
theorem C7_stale_flag_not_cleared :
    processCalendarUpdate 1 0 [] [staleFlaggedBooking] = [staleFlaggedBooking] ∧
    staleFlaggedBooking.hasCalendarConflict = true ∧
    staleFlaggedBooking.conflictDetails ≠ [] ∧
    gccFilter 1 0 staleFlaggedBooking = true := by
  decide

/-- C7 amended: only part_011's `checkBookingConflicts` keeps the flag
correct in both directions — a found conflict sets the flag and stores
the details, and with no current conflict the flag ends up false (and a
previously set flag has its details cleared); googleCalendarController's
variant (the counterexample) sets flags but never clears them. -/
theorem C7_p11_reconcile_correct :
    ∀ (userId now : Nat) (events : List CalEvent) (bookings : List BookingR)
      (b : BookingR),
      checkBookingConflicts userId now events bookings =
        bookings.map (p11Step userId now events) ∧
      ((events.filter fun e => p11Conflict b e) ≠ [] →
        (p11Reconcile events b).hasCalendarConflict = true ∧
        (p11Reconcile events b).conflictDetails =
          (events.filter fun e => p11Conflict b e).map conflictDetailOf) ∧
      ((events.filter fun e => p11Conflict b e) = [] →
        (p11Reconcile events b).hasCalendarConflict = false ∧
        (b.hasCalendarConflict = true →
          (p11Reconcile events b).conflictDetails = [])) := by
  intro u n events bookings b
  refine ⟨rfl, ?_, ?_⟩
  · intro h
    have hE : (events.filter fun e => p11Conflict b e).isEmpty = false := by
      cases hq : (events.filter fun e => p11Conflict b e).isEmpty
      · rfl
      · exact absurd (List.isEmpty_iff.mp hq) h
    constructor <;> simp [p11Reconcile, hE]
  · intro h
    have hE : (events.filter fun e => p11Conflict b e).isEmpty = true :=
      List.isEmpty_iff.mpr h
    constructor
    · by_cases hb : b.hasCalendarConflict <;> simp [p11Reconcile, hE, hb]
    · intro hb
      simp [p11Reconcile, hE, hb]

/-- Witness for C7 amended: a run with no current conflicts clears the
stale flag and details of `staleFlaggedBooking` under the part_011 job. -/
theorem C7_p11_reconcile_correct_witness :
    (p11Reconcile [] staleFlaggedBooking).hasCalendarConflict = false ∧
    (staleFlaggedBooking.hasCalendarConflict = true →
      (p11Reconcile [] staleFlaggedBooking).conflictDetails = []) :=
  (C7_p11_reconcile_correct 1 0 [] [] staleFlaggedBooking).2.2 (by decide)

/-- C8 counterexample: googleCalendarController's `processCalendarUpdate`
queries only `ownerId` and `startTime > now` — no status condition — so
a run mutates a canceled future booking, setting its conflict flag. -/
theorem C8_canceled_booking_mutated :
    canceledFutureBooking.status = "canceled" ∧
    processCalendarUpdate 1 0 [overlapEvent] [canceledFutureBooking] ≠
      [canceledFutureBooking] ∧
    (processCalendarUpdate 1 0 [overlapEvent] [canceledFutureBooking]).map
      (fun b => b.hasCalendarConflict) = [true] := by
  decide

/-- C8 amended: part_011's `checkBookingConflicts` has the claimed
frame — it processes only the owner's future bookings with status
`confirmed` or `pending` (hence non-canceled), and every booking outside
that filter passes through unchanged; googleCalendarController's variant
(the counterexample) lacks the status condition and can mutate canceled
future bookings. -/
theorem C8_p11_frame :
    ∀ (userId now : Nat) (events : List CalEvent) (bookings : List BookingR)
      (b : BookingR),
      checkBookingConflicts userId now events bookings =
        bookings.map (p11Step userId now events) ∧
      (p11Filter userId now b = true →
        b.ownerId = userId ∧ b.startTime > now ∧ b.status ≠ "canceled") ∧
      (p11Filter userId now b = false → p11Step userId now events b = b) := by
  intro u n events bookings b
  refine ⟨rfl, ?_, ?_⟩
  · intro h
    simp only [p11Filter, Bool.and_eq_true, Bool.or_eq_true,
      decide_eq_true_eq] at h
    obtain ⟨⟨h1, h2⟩, h3⟩ := h
    refine ⟨h1, h2, ?_⟩
    rcases h3 with h3 | h3 <;> rw [h3] <;> decide
  · intro h
    simp [p11Step, h]

/-- Witness for C8 amended: a canceled future booking is untouched by
the part_011 job step. -/
theorem C8_p11_frame_witness :
    p11Step 1 0 [overlapEvent] canceledFutureBooking = canceledFutureBooking :=
  (C8_p11_frame 1 0 [overlapEvent] [] canceledFutureBooking).2.2 (by decide)

/-- C9: `getGoogleCalendarBusyPeriods` returns the empty sequence — and
raises nothing — when there is no user record, when the user has no
stored Google tokens, or when the external call fails; and with an empty
busy sequence `getAvailableTimeSlots` reduces to slot generation over
windows and bookings alone. -/
theorem C9_busy_periods_degrade :
    (∀ fb, getGoogleCalendarBusyPeriods none fb = []) ∧
    (∀ (u : User) fb, u.googleTokens = none →
      getGoogleCalendarBusyPeriods (some u) fb = []) ∧
    (∀ (u : User) (msg : String),
      getGoogleCalendarBusyPeriods (some u) (Except.error msg) = []) ∧
    (∀ (userId : Nat) (allWindows : List Window)
      (allBookings : List BookingDoc) (user : Option User)
      (fb : Except String (List Interval))
      (startDate endDate durationMinutes : Nat),
      getGoogleCalendarBusyPeriods user fb = [] →
      getAvailableTimeSlots userId allWindows allBookings user fb startDate
          endDate durationMinutes =
        generateTimeSlots
          (allWindows.filter fun w => decide (w.ownerId = userId) && w.active)
          (allBookings.filter (bookingQuery userId startDate endDate))
          [] startDate endDate durationMinutes) := by
  refine ⟨fun fb => rfl, ?_, ?_, ?_⟩
  · intro u fb h
    simp [getGoogleCalendarBusyPeriods, h]
  · intro u msg
    cases h : u.googleTokens <;> simp [getGoogleCalendarBusyPeriods, h]
  · intro userId allWindows allBookings user fb startDate endDate
      durationMinutes h
    simp only [getAvailableTimeSlots]
    rw [h]

/-- Witness for C9: a user with no stored tokens yields no busy periods
even when the external call would have returned some, and the slot query
for the Monday scenario reduces to the busy-free computation. -/
theorem C9_busy_periods_degrade_witness :
    getGoogleCalendarBusyPeriods (some ⟨none⟩) (Except.ok [⟨0, 1⟩]) = [] ∧
    getAvailableTimeSlots 1 [mondayWindow] [straddleBooking] none
        (Except.ok []) 345600000 431999999 60 =
      generateTimeSlots
        ([mondayWindow].filter fun w => decide (w.ownerId = 1) && w.active)
        ([straddleBooking].filter (bookingQuery 1 345600000 431999999))
        [] 345600000 431999999 60 :=
  ⟨C9_busy_periods_degrade.2.1 ⟨none⟩ (Except.ok [⟨0, 1⟩]) rfl,
   C9_busy_periods_degrade.2.2.2 1 [mondayWindow] [straddleBooking] none
     (Except.ok []) 345600000 431999999 60 rfl⟩

/-- C10: the availability query fetches only bookings entirely contained
in the query range (`startTime >= rangeStart AND endTime <= rangeEnd`):
any booking starting before the range start fails the filter no matter
what, and concretely the non-canceled owner booking Sunday 23:30 -
Monday 09:30 — which overlaps the Monday query range — is not fetched,
so the returned 09:00-10:00 slot overlaps that existing booking. -/
theorem C10_straddling_booking_missed :
    (∀ (userId startDate endDate : Nat) (b : BookingDoc),
      b.startTime < startDate →
      bookingQuery userId startDate endDate b = false) ∧
    bookingQuery 1 345600000 431999999 straddleBooking = false ∧
    straddleBooking.status ≠ "canceled" ∧
    straddleBooking.ownerId = 1 ∧
    straddleBooking.startTime < 345600000 ∧
    specOverlaps straddleBooking.startTime straddleBooking.endTime
      345600000 431999999 = true ∧
    getAvailableTimeSlots 1 [mondayWindow] [straddleBooking] none
        (Except.ok []) 345600000 431999999 60 =
      [⟨378000000, 381600000⟩, ⟨381600000, 385200000⟩,
        ⟨385200000, 388800000⟩] ∧
    specOverlaps 378000000 381600000 straddleBooking.startTime
      straddleBooking.endTime = true := by
  refine ⟨?_, by decide⟩
  intro u sD eD b h
  simp only [bookingQuery]
  rw [decide_eq_false (by omega : ¬ b.startTime ≥ sD)]
  simp

/-- Witness for C10: the straddling booking fails the fetch filter for
an arbitrary other owner id as well. -/
theorem C10_straddling_booking_missed_witness :
    bookingQuery 7 345600000 431999999 straddleBooking = false :=
  C10_straddling_booking_missed.1 7 345600000 431999999 straddleBooking
    (by decide)

end ProCalender
